import Mathlib

/-!
# Verification of the player-synced shared-memory reader

This development embeds `sim_info_sync.py` (class `SimInfoSync`) in Lean and
proves properties of its polling loop, player-index resolution, freeze
detection and recovery machinery.

The record layouts themselves live in `rF2data.py`, which only declares the
externally fixed binary format (version stamp pair plus a fixed array of 128
vehicle slots); the fields the loop actually reads are `mVersionUpdateBegin`,
`mVersionUpdateEnd`, `mVehicles[i].mID` and `mVehicles[i].mIsPlayer`.  All
remaining per-vehicle fields are only ever copied wholesale, so they are
abstracted into a single `payload` field.
-/

namespace SimInfoSync

/-- Modelled from the spec (the record layout file `rF2data.py` is not part of
the sources here): one vehicle slot of a telemetry or scoring record, carrying
the producer-assigned `mID`, the `mIsPlayer` flag byte, and an abstract
`payload` standing for all remaining per-vehicle fields, which the loop only
copies wholesale. -/
structure VehicleSlot where
  mID : Int
  mIsPlayer : Nat
  payload : Int
deriving DecidableEq, Repr

/-- Modelled from the spec (layout file not in the sources): a telemetry or
scoring record as copied out of shared memory: the version stamp pair written
by the producer around each update, and the fixed array of 128 vehicle
slots. -/
structure Snapshot where
  mVersionUpdateBegin : Nat
  mVersionUpdateEnd : Nat
  mVehicles : Fin 128 → VehicleSlot

instance : DecidableEq Snapshot := fun a b =>
  decidable_of_iff
    (a.mVersionUpdateBegin = b.mVersionUpdateBegin ∧
      a.mVersionUpdateEnd = b.mVersionUpdateEnd ∧ a.mVehicles = b.mVehicles)
    (by cases a; cases b; simp)

/-- `SimInfoSync.dataVerified` (line 131): a copied record is valid iff the
two version stamps agree. -/
def dataVerified (input_data : Snapshot) : Bool :=
  input_data.mVersionUpdateEnd == input_data.mVersionUpdateBegin

/-- The scan of `SimInfoSync.__playerVerified` (line 122): walk the slot
positions `p, p+1, ...` (at most `fuel` of them, never past 127) and return
the first position whose `mIsPlayer` equals exactly 1.  The Python loop is
`for _player in range(128)` with the test `mVehicles[_player].mIsPlayer == 1`;
it is `playerScan` below with `p = 0` and `fuel = 128`. -/
def scanPlayerFrom (snap : Snapshot) : Nat → Nat → Option (Fin 128)
  | _, 0 => none
  | p, fuel + 1 =>
    if h : p < 128 then
      if (snap.mVehicles ⟨p, h⟩).mIsPlayer == 1 then some ⟨p, h⟩
      else scanPlayerFrom snap (p + 1) fuel
    else none

/-- `SimInfoSync.__playerVerified`, as a function from the scoring snapshot to
the found player index: `some i` means the Python method returns `True` after
setting `self.players_index = i`; `none` means it returns `False` leaving
`self.players_index` untouched. -/
def playerScan (snap : Snapshot) : Option (Fin 128) :=
  scanPlayerFrom snap 0 128

/-- Reading `snap.mVehicles[i]` for a `Nat` index, `none` standing for the
`IndexError` a Python access out of the 128-slot range would raise. -/
def vehicleAt (snap : Snapshot) (i : Nat) : Option VehicleSlot :=
  if h : i < 128 then some (snap.mVehicles ⟨i, h⟩) else none

/-- What one iteration of `__infoUpdate` reads from the mapped regions: the
deep copies of the four records taken at the top of the loop body
(lines 146 to 149), plus the contents the four regions would expose if the
mapping were closed and reopened during this very tick (used by `reset_mmap`,
whose `start_mmap` re-captures the default copies from the fresh mapping). -/
structure Env where
  scor : Snapshot
  tele : Snapshot
  ext : Int
  ffb : Int
  rescor : Snapshot
  retele : Snapshot
  reext : Int
  reffb : Int

/-- The mutable state of a `SimInfoSync` object as seen by `__infoUpdate`:
the object fields (`players_index`, the four `Def*` default copies, the four
`Last*` published records, and the memory-mapping handle abstracted as an
open flag plus the `_input_pid` naming parameter), together with the local
variables of `__infoUpdate` that persist across loop iterations
(lines 138 to 143). -/
structure LoopState where
  players_index : Nat
  DefTele : Snapshot
  DefScor : Snapshot
  DefExt : Int
  DefFfb : Int
  LastTele : Snapshot
  LastScor : Snapshot
  LastExt : Int
  LastFfb : Int
  players_mid : Int
  last_version_update : Nat
  re_version_update : Nat
  mmap_restarted : Bool
  check_counter : Nat
  restore_counter : Nat
  mmap_open : Bool
  mmap_pid : String

instance : DecidableEq LoopState := fun a b =>
  decidable_of_iff
    (a.players_index = b.players_index ∧ a.DefTele = b.DefTele ∧
      a.DefScor = b.DefScor ∧ a.DefExt = b.DefExt ∧ a.DefFfb = b.DefFfb ∧
      a.LastTele = b.LastTele ∧ a.LastScor = b.LastScor ∧
      a.LastExt = b.LastExt ∧ a.LastFfb = b.LastFfb ∧
      a.players_mid = b.players_mid ∧
      a.last_version_update = b.last_version_update ∧
      a.re_version_update = b.re_version_update ∧
      a.mmap_restarted = b.mmap_restarted ∧
      a.check_counter = b.check_counter ∧
      a.restore_counter = b.restore_counter ∧
      a.mmap_open = b.mmap_open ∧ a.mmap_pid = b.mmap_pid)
    (by cases a; cases b; simp)

/-- `SimInfoSync.close` (line 100): release the four mappings.  The live
`Rf2*` views become unusable; the naming parameter is untouched. -/
def close_mmap (s : LoopState) : LoopState :=
  { s with mmap_open := false }

/-- `SimInfoSync.start_mmap` (line 57): map the four regions under the names
built from the unchanged `_input_pid` parameter and capture the `Def*`
default deep copies from the freshly mapped contents (lines 83 to 86). -/
def start_mmap (env : Env) (s : LoopState) : LoopState :=
  { s with mmap_open := true, DefTele := env.retele, DefScor := env.rescor,
           DefExt := env.reext, DefFfb := env.reffb }

/-- `SimInfoSync.reset_mmap` (line 95): `self.close()` then
`self.start_mmap()`. -/
def reset_mmap (env : Env) (s : LoopState) : LoopState :=
  start_mmap env (close_mmap s)

/-- `SimInfoSync.set_default_mmap` (line 88): reset the four published
`Last*` records to the `Def*` default copies. -/
def set_default_mmap (s : LoopState) : LoopState :=
  { s with LastTele := s.DefTele, LastScor := s.DefScor,
           LastExt := s.DefExt, LastFfb := s.DefFfb }

/-- Lines 146 to 149 of `__infoUpdate`: copy the scoring and telemetry
records into locals (carried by `Env`) and unconditionally overwrite
`LastExt` and `LastFfb` with fresh copies of the extended and force-feedback
regions. -/
def copyPhase (env : Env) (s : LoopState) : LoopState :=
  { s with LastExt := env.ext, LastFfb := env.ffb }

/-- Lines 151 to 159 of `__infoUpdate`: if the scoring copy is verified and
the player scan finds a slot, store the scoring copy and the player id; if
additionally the telemetry copy is verified and its slot at the same
`players_index` carries the same id, store the telemetry copy. -/
def publishPhase (env : Env) (s : LoopState) : LoopState :=
  let data_scor := env.scor
  let data_tele := env.tele
  if dataVerified data_scor then
    match playerScan data_scor with
    | some idx =>
      let s1 := { s with players_index := idx.val, LastScor := data_scor }
      let players_mid := (s1.LastScor.mVehicles idx).mID
      let s2 := { s1 with players_mid := players_mid }
      if dataVerified data_tele && ((data_tele.mVehicles idx).mID == players_mid) then
        { s2 with LastTele := data_tele }
      else s2
    | none => s
  else s

/-- Lines 161 to 172 of `__infoUpdate`: bump `check_counter`; at a check
window (counter past 70) trigger `reset_mmap` when no restart is pending and
the previously recorded non-zero version stamp still equals the published
scoring stamp, then record the current stamp and restart the counter. -/
def checkPhase (env : Env) (s : LoopState) : LoopState :=
  let s0 := { s with check_counter := s.check_counter + 1 }
  if s0.check_counter > 70 then
    let s1 :=
      if !s0.mmap_restarted && s0.last_version_update != 0 &&
         (s0.last_version_update == s0.LastScor.mVersionUpdateEnd) then
        { reset_mmap env s0 with
            mmap_restarted := true,
            re_version_update := s0.LastScor.mVersionUpdateEnd }
      else s0
    { s1 with last_version_update := s1.LastScor.mVersionUpdateEnd,
              check_counter := 0 }
  else s0

/-- Lines 174 to 179 of `__infoUpdate`: while a restart is pending, leave the
pending state as soon as the published scoring stamp moves away from the
stamp recorded at the restart (and rearm the restore counter), otherwise let
the restore counter climb up to its cap of 71. -/
def restartFlagPhase (s : LoopState) : LoopState :=
  if s.mmap_restarted then
    if s.re_version_update != s.LastScor.mVersionUpdateEnd then
      { s with mmap_restarted := false, restore_counter := 0 }
    else if s.restore_counter < 71 then
      { s with restore_counter := s.restore_counter + 1 }
    else s
  else s

/-- Lines 181 to 183 of `__infoUpdate`: when the restore counter lands
exactly on 70, reset the published records to the default copies. -/
def restorePhase (s : LoopState) : LoopState :=
  if s.restore_counter == 70 then set_default_mmap s else s

/-- One iteration of the `while self.data_updating` body of
`SimInfoSync.__infoUpdate` (lines 145 to 192), phases in source order. -/
def tick (env : Env) (s : LoopState) : LoopState :=
  restorePhase (restartFlagPhase (checkPhase env (publishPhase env (copyPhase env s))))

/-- The contents of the four regions as first mapped, from which `__init__`
takes both the `Def*` copies (`start_mmap`) and the initial `Last*` records
(`set_default_mmap`). -/
structure InitData where
  tele : Snapshot
  scor : Snapshot
  ext : Int
  ffb : Int

/-- The state after `SimInfoSync.__init__` (lines 28 to 54) followed by
`startUpdating`, as `__infoUpdate` first sees it: `players_index = 99`,
defaults and published records both set to the initial region contents, and
the loop locals of lines 138 to 143. -/
def initState (pid : String) (d : InitData) : LoopState :=
  { players_index := 99, DefTele := d.tele, DefScor := d.scor,
    DefExt := d.ext, DefFfb := d.ffb,
    LastTele := d.tele, LastScor := d.scor, LastExt := d.ext, LastFfb := d.ffb,
    players_mid := 0, last_version_update := 0, re_version_update := 0,
    mmap_restarted := true, check_counter := 0, restore_counter := 71,
    mmap_open := true, mmap_pid := pid }

/-- `n` iterations of the update loop, the producer-side region contents of
iteration `k` given by `f k`. -/
def run (pid : String) (d : InitData) (f : Nat → Env) : Nat → LoopState
  | 0 => initState pid d
  | n + 1 => tick (f n) (run pid d f n)

/-- `SimInfoSync.syncedVehicleTelemetry` (line 209): the published telemetry
slot at `players_index`. -/
def syncedVehicleTelemetry (s : LoopState) : Option VehicleSlot :=
  vehicleAt s.LastTele s.players_index

/-- `SimInfoSync.syncedVehicleScoring` (line 213): the published scoring slot
at `players_index`. -/
def syncedVehicleScoring (s : LoopState) : Option VehicleSlot :=
  vehicleAt s.LastScor s.players_index

/-! ## Spec-side PlayerLocator, for comparison

The specification describes a `find_telemetry_index` that scans the telemetry
slot array for a matching id and an `is_synced` status query.  Neither exists
in `sim_info_sync.py`; they are modelled here from the specification text so
the code's behaviour can be compared against them. -/

/-- Modelled from the spec: `find_telemetry_index(scoring_slot_id,
telemetry_snapshot)` scans the telemetry slot array for a slot whose id
equals the given id, returning its position or unresolved.  No such scan
exists in `sim_info_sync.py`. -/
def scanIdFrom (snap : Snapshot) (id : Int) : Nat → Nat → Option (Fin 128)
  | _, 0 => none
  | p, fuel + 1 =>
    if h : p < 128 then
      if (snap.mVehicles ⟨p, h⟩).mID == id then some ⟨p, h⟩
      else scanIdFrom snap id (p + 1) fuel
    else none

/-- Modelled from the spec: the telemetry-index half of `PlayerLocator`. -/
def find_telemetry_index (id : Int) (tele : Snapshot) : Option (Fin 128) :=
  scanIdFrom tele id 0 128

/-- Modelled from the spec: `PlayerLocator.resolve` runs both scans and
additionally requires the two resolved slots to carry the same id. -/
def resolve (scor tele : Snapshot) : Option (Fin 128 × Fin 128) :=
  match playerScan scor with
  | none => none
  | some i =>
    match find_telemetry_index ((scor.mVehicles i).mID) tele with
    | none => none
    | some j =>
      if (scor.mVehicles i).mID == (tele.mVehicles j).mID then some (i, j)
      else none

/-- Modelled from the spec: `is_synced()` reports whether the current tick's
snapshots verify and the player resolution succeeds; no such query exists in
`sim_info_sync.py`. -/
def is_synced (env : Env) : Bool :=
  dataVerified env.scor && dataVerified env.tele &&
    (resolve env.scor env.tele).isSome

/-! ## Characterization of the player scan -/

lemma scanPlayerFrom_none_iff (snap : Snapshot) :
    ∀ fuel p, 128 ≤ p + fuel →
      (scanPlayerFrom snap p fuel = none ↔
        ∀ j : Fin 128, p ≤ j.val → (snap.mVehicles j).mIsPlayer ≠ 1) := by
  intro fuel
  induction fuel with
  | zero =>
    intro p hp
    rw [scanPlayerFrom]
    constructor
    · intro _ j hj
      have := j.isLt
      omega
    · intro _
      rfl
  | succ f ih =>
    intro p hp
    by_cases h : p < 128
    · rw [scanPlayerFrom, dif_pos h]
      by_cases hf : (snap.mVehicles ⟨p, h⟩).mIsPlayer = 1
      · rw [if_pos (by simpa using hf)]
        constructor
        · intro hc
          exact (Option.some_ne_none _ hc).elim
        · intro hall
          exact ((hall ⟨p, h⟩ (Nat.le_refl p)) hf).elim
      · rw [if_neg (by simpa using hf)]
        rw [ih (p + 1) (by omega)]
        constructor
        · intro hall j hj
          rcases Nat.eq_or_lt_of_le hj with heq | hlt
          · have hjp : j = ⟨p, h⟩ := Fin.ext heq.symm
            rw [hjp]
            exact hf
          · exact hall j hlt
        · intro hall j hj
          exact hall j (Nat.le_of_succ_le hj)
    · rw [scanPlayerFrom, dif_neg h]
      constructor
      · intro _ j hj
        have := j.isLt
        omega
      · intro _
        rfl

lemma scanPlayerFrom_some_iff (snap : Snapshot) :
    ∀ fuel p (i : Fin 128), 128 ≤ p + fuel →
      (scanPlayerFrom snap p fuel = some i ↔
        p ≤ i.val ∧ (snap.mVehicles i).mIsPlayer = 1 ∧
          ∀ j : Fin 128, p ≤ j.val → j < i → (snap.mVehicles j).mIsPlayer ≠ 1) := by
  intro fuel
  induction fuel with
  | zero =>
    intro p i hp
    rw [scanPlayerFrom]
    constructor
    · intro hc
      exact Option.noConfusion hc
    · rintro ⟨h1, -, -⟩
      have := i.isLt
      omega
  | succ f ih =>
    intro p i hp
    by_cases h : p < 128
    · rw [scanPlayerFrom, dif_pos h]
      by_cases hf : (snap.mVehicles ⟨p, h⟩).mIsPlayer = 1
      · rw [if_pos (by simpa using hf)]
        constructor
        · intro hc
          have hip : i = ⟨p, h⟩ := (Option.some_injective _ hc).symm
          subst hip
          refine ⟨Nat.le_refl p, hf, ?_⟩
          intro j hj hji
          have hlt : j.val < p := hji
          omega
        · rintro ⟨h1, h2, h3⟩
          have hip : i = ⟨p, h⟩ := by
            by_contra hne
            have hvne : i.val ≠ p := fun hv => hne (Fin.ext hv)
            have hpi : p < i.val := by omega
            exact h3 ⟨p, h⟩ (Nat.le_refl p) (Fin.lt_def.mpr hpi) hf
          rw [hip]
      · rw [if_neg (by simpa using hf)]
        rw [ih (p + 1) i (by omega)]
        constructor
        · rintro ⟨h1, h2, h3⟩
          refine ⟨by omega, h2, ?_⟩
          intro j hj hji
          rcases Nat.eq_or_lt_of_le hj with heq | hlt
          · have hjp : j = ⟨p, h⟩ := Fin.ext heq.symm
            rw [hjp]
            exact hf
          · exact h3 j hlt hji
        · rintro ⟨h1, h2, h3⟩
          have hvne : i.val ≠ p := by
            intro hv
            apply hf
            have hip : i = ⟨p, h⟩ := Fin.ext hv
            rw [← hip]
            exact h2
          exact ⟨by omega, h2, fun j hj hji => h3 j (by omega) hji⟩
    · rw [scanPlayerFrom, dif_neg h]
      constructor
      · intro hc
        exact Option.noConfusion hc
      · rintro ⟨h1, -, -⟩
        have := i.isLt
        omega

/-- Claim C4: the player-index scan examines the full fixed range of 128
slots afresh on every call (it is a pure function of the snapshot restarting at
slot 0), returns the first slot whose `mIsPlayer` is exactly 1, and reports
unresolved (`none`) precisely when no slot of the whole range carries the
flag value 1. -/
theorem C4_player_scan_first_exact (snap : Snapshot) :
    (∀ i : Fin 128, playerScan snap = some i ↔
        (snap.mVehicles i).mIsPlayer = 1 ∧
          ∀ j : Fin 128, j < i → (snap.mVehicles j).mIsPlayer ≠ 1)
  ∧ (playerScan snap = none ↔ ∀ j : Fin 128, (snap.mVehicles j).mIsPlayer ≠ 1) := by
  constructor
  · intro i
    rw [playerScan, scanPlayerFrom_some_iff snap 128 0 i (by omega)]
    constructor
    · rintro ⟨-, h2, h3⟩
      exact ⟨h2, fun j hj => h3 j (Nat.zero_le _) hj⟩
    · rintro ⟨h2, h3⟩
      exact ⟨Nat.zero_le _, h2, fun j _ hj => h3 j hj⟩
  · rw [playerScan, scanPlayerFrom_none_iff snap 128 0 (by omega)]
    constructor
    · intro hall j
      exact hall j (Nat.zero_le _)
    · intro hall j _
      exact hall j

/-- A snapshot whose first slot with flag exactly 1 sits at position 2, with
a decoy slot at position 1 whose flag byte is the non-zero value 2 (which the
scan must skip) and a second genuine flag at position 5 (which the scan must
not reach). -/
def c4snap : Snapshot :=
  { mVersionUpdateBegin := 1, mVersionUpdateEnd := 1,
    mVehicles := fun i =>
      if i.val = 1 then ⟨10, 2, 0⟩
      else if i.val = 2 then ⟨11, 1, 0⟩
      else if i.val = 5 then ⟨12, 1, 0⟩
      else ⟨0, 0, 0⟩ }

/-- Witness for C4 at a concrete snapshot: the scan skips the flag value 2 at
position 1 and resolves to position 2. -/
theorem C4_witness : playerScan c4snap = some (2 : Fin 128) :=
  ((C4_player_scan_first_exact c4snap).1 (2 : Fin 128)).mpr
    ⟨by decide, by decide⟩

/-! ## Frame lemmas for the phases of one tick -/

lemma publishPhase_of_not_verified (env : Env) (s : LoopState)
    (hv : dataVerified env.scor = false) : publishPhase env s = s := by
  simp [publishPhase, hv]

lemma publishPhase_of_none (env : Env) (s : LoopState)
    (hp : playerScan env.scor = none) : publishPhase env s = s := by
  simp only [publishPhase]
  by_cases hv : dataVerified env.scor = true
  · rw [if_pos hv, hp]
  · rw [if_neg hv]

lemma publishPhase_cases (env : Env) (s : LoopState) :
    publishPhase env s = s ∨
    ∃ i : Fin 128, dataVerified env.scor = true ∧ playerScan env.scor = some i ∧
      ((dataVerified env.tele &&
          ((env.tele.mVehicles i).mID == (env.scor.mVehicles i).mID)) = true ∧
        publishPhase env s =
          { s with players_index := i.val, LastScor := env.scor,
                   players_mid := (env.scor.mVehicles i).mID, LastTele := env.tele } ∨
       (dataVerified env.tele &&
          ((env.tele.mVehicles i).mID == (env.scor.mVehicles i).mID)) = false ∧
        publishPhase env s =
          { s with players_index := i.val, LastScor := env.scor,
                   players_mid := (env.scor.mVehicles i).mID }) := by
  by_cases hv : dataVerified env.scor = true
  · cases hp : playerScan env.scor with
    | none => exact Or.inl (publishPhase_of_none env s hp)
    | some i =>
      right
      refine ⟨i, hv, rfl, ?_⟩
      simp only [publishPhase]
      rw [if_pos hv, hp]
      dsimp only
      by_cases ht : (dataVerified env.tele &&
          ((env.tele.mVehicles i).mID == (env.scor.mVehicles i).mID)) = true
      · rw [if_pos ht]
        exact Or.inl ⟨ht, rfl⟩
      · rw [if_neg ht]
        exact Or.inr ⟨by simpa using ht, rfl⟩
  · exact Or.inl (publishPhase_of_not_verified env s (by simpa using hv))

lemma publishPhase_of_some (env : Env) (s : LoopState) (i : Fin 128)
    (hv : dataVerified env.scor = true) (hp : playerScan env.scor = some i)
    (ht : dataVerified env.tele = true)
    (hid : (env.tele.mVehicles i).mID = (env.scor.mVehicles i).mID) :
    publishPhase env s =
      { s with players_index := i.val, LastScor := env.scor,
               players_mid := (env.scor.mVehicles i).mID, LastTele := env.tele } := by
  simp only [publishPhase]
  rw [if_pos hv, hp]
  dsimp only
  rw [if_pos (by simp [ht, hid])]

lemma publishPhase_of_some_mismatch (env : Env) (s : LoopState) (i : Fin 128)
    (hv : dataVerified env.scor = true) (hp : playerScan env.scor = some i)
    (ht : ¬ (dataVerified env.tele = true ∧
      (env.tele.mVehicles i).mID = (env.scor.mVehicles i).mID)) :
    publishPhase env s =
      { s with players_index := i.val, LastScor := env.scor,
               players_mid := (env.scor.mVehicles i).mID } := by
  simp only [publishPhase]
  rw [if_pos hv, hp]
  dsimp only
  rw [if_neg (by simpa using ht)]

lemma publishPhase_frame (env : Env) (s : LoopState) :
    (publishPhase env s).DefTele = s.DefTele ∧
    (publishPhase env s).DefScor = s.DefScor ∧
    (publishPhase env s).DefExt = s.DefExt ∧
    (publishPhase env s).DefFfb = s.DefFfb ∧
    (publishPhase env s).LastExt = s.LastExt ∧
    (publishPhase env s).LastFfb = s.LastFfb ∧
    (publishPhase env s).last_version_update = s.last_version_update ∧
    (publishPhase env s).re_version_update = s.re_version_update ∧
    (publishPhase env s).mmap_restarted = s.mmap_restarted ∧
    (publishPhase env s).check_counter = s.check_counter ∧
    (publishPhase env s).restore_counter = s.restore_counter ∧
    (publishPhase env s).mmap_open = s.mmap_open ∧
    (publishPhase env s).mmap_pid = s.mmap_pid := by
  rcases publishPhase_cases env s with h | ⟨i, -, -, ⟨-, h⟩ | ⟨-, h⟩⟩ <;>
    rw [h] <;> exact ⟨rfl, rfl, rfl, rfl, rfl, rfl, rfl, rfl, rfl, rfl, rfl, rfl, rfl⟩

lemma checkPhase_frame (env : Env) (s : LoopState) :
    (checkPhase env s).players_index = s.players_index ∧
    (checkPhase env s).LastTele = s.LastTele ∧
    (checkPhase env s).LastScor = s.LastScor ∧
    (checkPhase env s).LastExt = s.LastExt ∧
    (checkPhase env s).LastFfb = s.LastFfb ∧
    (checkPhase env s).players_mid = s.players_mid ∧
    (checkPhase env s).restore_counter = s.restore_counter ∧
    (checkPhase env s).mmap_pid = s.mmap_pid := by
  simp only [checkPhase, reset_mmap, start_mmap, close_mmap]
  split
  · split <;> exact ⟨rfl, rfl, rfl, rfl, rfl, rfl, rfl, rfl⟩
  · exact ⟨rfl, rfl, rfl, rfl, rfl, rfl, rfl, rfl⟩

lemma checkPhase_restarted_true (env : Env) (s : LoopState)
    (h : s.mmap_restarted = true) : (checkPhase env s).mmap_restarted = true := by
  simp only [checkPhase, reset_mmap, start_mmap, close_mmap]
  split
  all_goals simp [h]

lemma restartFlagPhase_frame (s : LoopState) :
    (restartFlagPhase s).players_index = s.players_index ∧
    (restartFlagPhase s).LastTele = s.LastTele ∧
    (restartFlagPhase s).LastScor = s.LastScor ∧
    (restartFlagPhase s).LastExt = s.LastExt ∧
    (restartFlagPhase s).LastFfb = s.LastFfb ∧
    (restartFlagPhase s).DefTele = s.DefTele ∧
    (restartFlagPhase s).DefScor = s.DefScor ∧
    (restartFlagPhase s).DefExt = s.DefExt ∧
    (restartFlagPhase s).DefFfb = s.DefFfb ∧
    (restartFlagPhase s).players_mid = s.players_mid ∧
    (restartFlagPhase s).last_version_update = s.last_version_update ∧
    (restartFlagPhase s).re_version_update = s.re_version_update ∧
    (restartFlagPhase s).check_counter = s.check_counter ∧
    (restartFlagPhase s).mmap_open = s.mmap_open ∧
    (restartFlagPhase s).mmap_pid = s.mmap_pid := by
  simp only [restartFlagPhase]
  split
  · split
    · exact ⟨rfl, rfl, rfl, rfl, rfl, rfl, rfl, rfl, rfl, rfl, rfl, rfl, rfl, rfl, rfl⟩
    · split <;> exact ⟨rfl, rfl, rfl, rfl, rfl, rfl, rfl, rfl, rfl, rfl, rfl, rfl, rfl, rfl, rfl⟩
  · exact ⟨rfl, rfl, rfl, rfl, rfl, rfl, rfl, rfl, rfl, rfl, rfl, rfl, rfl, rfl, rfl⟩

lemma restorePhase_of_ne (s : LoopState) (h : s.restore_counter ≠ 70) :
    restorePhase s = s := by
  simp [restorePhase, h]

lemma restorePhase_of_eq (s : LoopState) (h : s.restore_counter = 70) :
    restorePhase s = set_default_mmap s := by
  simp [restorePhase, h]

lemma restorePhase_frame (s : LoopState) :
    (restorePhase s).players_index = s.players_index ∧
    (restorePhase s).DefTele = s.DefTele ∧
    (restorePhase s).DefScor = s.DefScor ∧
    (restorePhase s).DefExt = s.DefExt ∧
    (restorePhase s).DefFfb = s.DefFfb ∧
    (restorePhase s).players_mid = s.players_mid ∧
    (restorePhase s).last_version_update = s.last_version_update ∧
    (restorePhase s).re_version_update = s.re_version_update ∧
    (restorePhase s).mmap_restarted = s.mmap_restarted ∧
    (restorePhase s).check_counter = s.check_counter ∧
    (restorePhase s).restore_counter = s.restore_counter ∧
    (restorePhase s).mmap_open = s.mmap_open ∧
    (restorePhase s).mmap_pid = s.mmap_pid := by
  simp only [restorePhase, set_default_mmap]
  split <;>
    exact ⟨rfl, rfl, rfl, rfl, rfl, rfl, rfl, rfl, rfl, rfl, rfl, rfl, rfl⟩

lemma tick_eq (env : Env) (s : LoopState) :
    tick env s =
      restorePhase (restartFlagPhase (checkPhase env (publishPhase env (copyPhase env s)))) :=
  rfl

/-! ## Concrete fixtures -/

/-- A slot with no player flag and id 0. -/
def defaultSlot : VehicleSlot := ⟨0, 0, 0⟩

/-- All-default region contents with version stamps 0. -/
def zeroSnap : Snapshot := ⟨0, 0, fun _ => defaultSlot⟩

/-- A verified snapshot (equal stamps `v`) with no player slot. -/
def plainSnap (v : Nat) : Snapshot := ⟨v, v, fun _ => defaultSlot⟩

/-- A torn snapshot: the copy straddled a producer write, stamps `b ≠ e`. -/
def tornSnap (b e : Nat) : Snapshot := ⟨b, e, fun _ => defaultSlot⟩

/-! ## Claim C1 — torn scoring snapshot -/

/-- Tick contents for the C1 counterexample: the scoring copy is torn. -/
def c1env : Env :=
  { scor := tornSnap 4 5, tele := zeroSnap, ext := 0, ffb := 0,
    rescor := zeroSnap, retele := zeroSnap, reext := 0, reffb := 0 }

/-- State for the C1 counterexample, as reached after a `reset_mmap` episode:
a restart is pending with the stamp 5 recorded at the restart still equal to
the published scoring stamp, and the restore counter has already climbed to
69, so the freeze-restore fires on the very next tick. -/
def c1state : LoopState :=
  { players_index := 99, DefTele := zeroSnap, DefScor := zeroSnap,
    DefExt := 0, DefFfb := 0,
    LastTele := plainSnap 5, LastScor := plainSnap 5, LastExt := 0, LastFfb := 0,
    players_mid := 0, last_version_update := 5, re_version_update := 5,
    mmap_restarted := true, check_counter := 0, restore_counter := 69,
    mmap_open := true, mmap_pid := "" }

/-- Claim C1, counterexample: a tick whose copied scoring snapshot fails the
version check can nonetheless overwrite the published player-scoped data —
here the freeze-restore fires on the same tick and resets `LastScor` to the
default copy, changing its version stamp from 5 to 0. -/
theorem C1_counterexample :
    dataVerified c1env.scor = false ∧
    (tick c1env c1state).LastScor.mVersionUpdateEnd ≠
      c1state.LastScor.mVersionUpdateEnd := by
  decide

/-- Claim C1 (amended): on every tick whose copied scoring snapshot has
unequal version stamps, provided the freeze-restore does not fire on that
same tick, the published player-scoped view is unchanged: `LastScor`,
`LastTele` and `players_index` keep their previous values and the loop
simply retries on the next tick. -/
theorem C1_torn_scoring_preserves_view (env : Env) (s : LoopState)
    (hv : dataVerified env.scor = false)
    (hr : (tick env s).restore_counter ≠ 70) :
    (tick env s).LastScor = s.LastScor ∧ (tick env s).LastTele = s.LastTele ∧
      (tick env s).players_index = s.players_index := by
  have hpub : publishPhase env (copyPhase env s) = copyPhase env s :=
    publishPhase_of_not_verified env (copyPhase env s) hv
  have hteq : tick env s =
      restorePhase (restartFlagPhase (checkPhase env (copyPhase env s))) := by
    rw [tick_eq, hpub]
  obtain ⟨-, -, -, -, -, -, -, -, -, -, frc, -, -⟩ :=
    restorePhase_frame (restartFlagPhase (checkPhase env (copyPhase env s)))
  have hrc : (tick env s).restore_counter =
      (restartFlagPhase (checkPhase env (copyPhase env s))).restore_counter := by
    rw [hteq]
    exact frc
  have hres := restorePhase_of_ne _ (fun h70 => hr (hrc.trans h70))
  rw [hteq, hres]
  obtain ⟨g1, g2, g3, -, -, -, -, -, -, -, -, -, -, -, -⟩ :=
    restartFlagPhase_frame (checkPhase env (copyPhase env s))
  obtain ⟨k1, k2, k3, -, -, -, -, -⟩ := checkPhase_frame env (copyPhase env s)
  refine ⟨?_, ?_, ?_⟩
  · rw [g3, k3]
    rfl
  · rw [g2, k2]
    rfl
  · rw [g1, k1]
    rfl

/-- A freshly initialized state (no restart episode in progress, restore
counter parked at its cap). -/
def c1wstate : LoopState := initState "" ⟨zeroSnap, zeroSnap, 0, 0⟩

/-- Witness for C1 at concrete input: a torn scoring tick on a fresh state
leaves the view untouched. -/
theorem C1_witness :
    (tick c1env c1wstate).LastScor = c1wstate.LastScor ∧
    (tick c1env c1wstate).LastTele = c1wstate.LastTele ∧
    (tick c1env c1wstate).players_index = c1wstate.players_index :=
  C1_torn_scoring_preserves_view c1env c1wstate (by decide) (by decide)

/-! ## Claim C5 — verified snapshot with no player slot -/

/-- Tick contents for C5: the scoring copy verifies (stamps 6 = 6) but no
slot carries the player flag. -/
def c5env : Env :=
  { scor := plainSnap 6, tele := zeroSnap, ext := 0, ffb := 0,
    rescor := zeroSnap, retele := zeroSnap, reext := 0, reffb := 0 }

/-- State for the C5 counterexample: restart pending, recorded stamp 5 equal
to the published scoring stamp, restore counter at 69. -/
def c5state : LoopState :=
  { players_index := 3, DefTele := zeroSnap, DefScor := zeroSnap,
    DefExt := 0, DefFfb := 0,
    LastTele := plainSnap 9, LastScor := plainSnap 5, LastExt := 0, LastFfb := 0,
    players_mid := 0, last_version_update := 5, re_version_update := 5,
    mmap_restarted := true, check_counter := 0, restore_counter := 69,
    mmap_open := true, mmap_pid := "" }

/-- Claim C5, counterexample: on a tick whose verified scoring snapshot has
no player slot, the previously published view is not always retained — the
freeze-restore can fire on that same tick and reset the published scoring
record to the default copy (stamp 5 becomes 0). -/
theorem C5_counterexample :
    dataVerified c5env.scor = true ∧ playerScan c5env.scor = none ∧
    (tick c5env c5state).LastScor.mVersionUpdateEnd ≠
      c5state.LastScor.mVersionUpdateEnd := by
  decide

/-- Claim C5 (amended): on a tick whose verified scoring snapshot contains
no slot with the player flag, provided the freeze-restore does not fire on
that same tick, the published view is retained unmodified — `LastScor`,
`LastTele` and `players_index` are unchanged — and the (spec-modelled)
synchronized-status query reports false. -/
theorem C5_no_player_retains_view (env : Env) (s : LoopState)
    (_hv : dataVerified env.scor = true) (hp : playerScan env.scor = none)
    (hr : (tick env s).restore_counter ≠ 70) :
    (tick env s).LastScor = s.LastScor ∧ (tick env s).LastTele = s.LastTele ∧
      (tick env s).players_index = s.players_index ∧ is_synced env = false := by
  have hpub : publishPhase env (copyPhase env s) = copyPhase env s :=
    publishPhase_of_none env (copyPhase env s) hp
  have hteq : tick env s =
      restorePhase (restartFlagPhase (checkPhase env (copyPhase env s))) := by
    rw [tick_eq, hpub]
  obtain ⟨-, -, -, -, -, -, -, -, -, -, frc, -, -⟩ :=
    restorePhase_frame (restartFlagPhase (checkPhase env (copyPhase env s)))
  have hrc : (tick env s).restore_counter =
      (restartFlagPhase (checkPhase env (copyPhase env s))).restore_counter := by
    rw [hteq]
    exact frc
  have hres := restorePhase_of_ne _ (fun h70 => hr (hrc.trans h70))
  rw [hteq, hres]
  obtain ⟨g1, g2, g3, -, -, -, -, -, -, -, -, -, -, -, -⟩ :=
    restartFlagPhase_frame (checkPhase env (copyPhase env s))
  obtain ⟨k1, k2, k3, -, -, -, -, -⟩ := checkPhase_frame env (copyPhase env s)
  refine ⟨by rw [g3, k3]; rfl, by rw [g2, k2]; rfl, by rw [g1, k1]; rfl, ?_⟩
  simp [is_synced, resolve, hp]

/-- A fresh state for the C5 witness. -/
def c5wstate : LoopState := initState "" ⟨zeroSnap, zeroSnap, 0, 0⟩

/-- Witness for C5 at concrete input. -/
theorem C5_witness :
    (tick c5env c5wstate).LastScor = c5wstate.LastScor ∧
    (tick c5env c5wstate).LastTele = c5wstate.LastTele ∧
    (tick c5env c5wstate).players_index = c5wstate.players_index ∧
    is_synced c5env = false :=
  C5_no_player_retains_view c5env c5wstate (by decide) (by decide) (by decide)

/-! ## Claim C10 — extended and force-feedback views -/

/-- Tick contents for C10: fresh extended and force-feedback values 7 and 9,
scoring copy torn (verification plays no role for these views). -/
def c10env : Env :=
  { scor := tornSnap 4 5, tele := zeroSnap, ext := 7, ffb := 9,
    rescor := zeroSnap, retele := zeroSnap, reext := 0, reffb := 0 }

/-- State for the C10 counterexample: restore fires this tick (restart
pending, recorded stamp equal to the published one, counter at 69). -/
def c10state : LoopState :=
  { players_index := 99, DefTele := zeroSnap, DefScor := zeroSnap,
    DefExt := 0, DefFfb := 0,
    LastTele := zeroSnap, LastScor := plainSnap 5, LastExt := 1, LastFfb := 1,
    players_mid := 0, last_version_update := 5, re_version_update := 5,
    mmap_restarted := true, check_counter := 0, restore_counter := 69,
    mmap_open := true, mmap_pid := "" }

/-- Claim C10, counterexample: on a freeze-restore tick the final values of
`LastExt` and `LastFfb` are the default copies, not the fresh copies taken at
the top of the tick — the fresh copies are immediately overwritten by
`set_default_mmap`. -/
theorem C10_counterexample :
    (tick c10env c10state).LastExt ≠ c10env.ext ∧
    (tick c10env c10state).LastFfb ≠ c10env.ffb := by
  decide

/-- Claim C10 (amended): on every tick on which the freeze-restore does not
fire, the extended-data and force-feedback views end the tick overwritten by
the fresh copies, with no version-stamp verification and no player
resolution involved (no such hypothesis appears); on a restore tick the
fresh copies are immediately replaced by the defaults. -/
theorem C10_ext_ffb_unconditional (env : Env) (s : LoopState)
    (hr : (tick env s).restore_counter ≠ 70) :
    (tick env s).LastExt = env.ext ∧ (tick env s).LastFfb = env.ffb := by
  obtain ⟨-, -, -, -, -, -, -, -, -, -, frc, -, -⟩ :=
    restorePhase_frame
      (restartFlagPhase (checkPhase env (publishPhase env (copyPhase env s))))
  have hrc : (tick env s).restore_counter =
      (restartFlagPhase
        (checkPhase env (publishPhase env (copyPhase env s)))).restore_counter := by
    rw [tick_eq]
    exact frc
  have hres := restorePhase_of_ne _ (fun h70 => hr (hrc.trans h70))
  rw [tick_eq, hres]
  obtain ⟨-, -, -, gLE, gLF, -, -, -, -, -, -, -, -, -, -⟩ :=
    restartFlagPhase_frame (checkPhase env (publishPhase env (copyPhase env s)))
  obtain ⟨-, -, -, kLE, kLF, -, -, -⟩ :=
    checkPhase_frame env (publishPhase env (copyPhase env s))
  obtain ⟨-, -, -, -, pLE, pLF, -, -, -, -, -, -, -⟩ :=
    publishPhase_frame env (copyPhase env s)
  constructor
  · rw [gLE, kLE, pLE]
    rfl
  · rw [gLF, kLF, pLF]
    rfl

/-- A fresh state for the C10 witness. -/
def c10wstate : LoopState := initState "x" ⟨zeroSnap, zeroSnap, 0, 0⟩

/-- Witness for C10 at concrete input: the fresh extended and force-feedback
copies land in the view even though the scoring snapshot is torn. -/
theorem C10_witness :
    (tick c10env c10wstate).LastExt = c10env.ext ∧
    (tick c10env c10wstate).LastFfb = c10env.ffb :=
  C10_ext_ffb_unconditional c10env c10wstate (by decide)

/-! ## Claims C2 and C3 — cross-feed id check -/

lemma tick_no_restore (env : Env) (s : LoopState)
    (hr : (tick env s).restore_counter ≠ 70) :
    tick env s =
      restartFlagPhase (checkPhase env (publishPhase env (copyPhase env s))) := by
  obtain ⟨-, -, -, -, -, -, -, -, -, -, frc, -, -⟩ :=
    restorePhase_frame
      (restartFlagPhase (checkPhase env (publishPhase env (copyPhase env s))))
  have hrc : (tick env s).restore_counter =
      (restartFlagPhase
        (checkPhase env (publishPhase env (copyPhase env s)))).restore_counter := by
    rw [tick_eq]
    exact frc
  rw [tick_eq]
  exact restorePhase_of_ne _ (fun h70 => hr (hrc.trans h70))

lemma tick_fields_no_restore (env : Env) (s : LoopState)
    (hr : (tick env s).restore_counter ≠ 70) :
    (tick env s).LastScor = (publishPhase env (copyPhase env s)).LastScor ∧
    (tick env s).LastTele = (publishPhase env (copyPhase env s)).LastTele ∧
    (tick env s).players_index = (publishPhase env (copyPhase env s)).players_index := by
  rw [tick_no_restore env s hr]
  obtain ⟨g1, g2, g3, -, -, -, -, -, -, -, -, -, -, -, -⟩ :=
    restartFlagPhase_frame (checkPhase env (publishPhase env (copyPhase env s)))
  obtain ⟨k1, k2, k3, -, -, -, -, -⟩ :=
    checkPhase_frame env (publishPhase env (copyPhase env s))
  exact ⟨by rw [g3, k3], by rw [g2, k2], by rw [g1, k1]⟩

/-- Tick contents for the C2 counterexample: a verified scoring snapshot
whose player slot 0 carries id 42, and a verified telemetry snapshot whose
slot 0 carries the different id 7. -/
def c2env : Env :=
  { scor := ⟨5, 5, fun i => if i.val = 0 then ⟨42, 1, 0⟩ else defaultSlot⟩,
    tele := ⟨3, 3, fun i => if i.val = 0 then ⟨7, 0, 0⟩ else defaultSlot⟩,
    ext := 0, ffb := 0, rescor := zeroSnap, retele := zeroSnap,
    reext := 0, reffb := 0 }

/-- A freshly initialized state for the C2 counterexample. -/
def c2state : LoopState := initState "" ⟨zeroSnap, zeroSnap, 0, 0⟩

/-- Claim C2, counterexample: on a tick whose scoring and telemetry slots
disagree on the id at the resolved index, part of the view is nonetheless
overwritten — the scoring part takes the new snapshot (version stamp moves
from 0 to 5) even though the ids disagree. -/
theorem C2_counterexample :
    playerScan c2env.scor = some (0 : Fin 128) ∧
    (c2env.tele.mVehicles (0 : Fin 128)).mID ≠
      (c2env.scor.mVehicles (0 : Fin 128)).mID ∧
    (tick c2env c2state).LastScor.mVersionUpdateEnd ≠
      c2state.LastScor.mVersionUpdateEnd := by
  decide

/-- Claim C2 (amended): outside freeze-restore ticks, the telemetry part of
the view is overwritten only when, in the same tick's pair of snapshots, the
scoring snapshot verifies with a resolved player slot, the telemetry
snapshot verifies, and the telemetry slot at that same index carries the
same id; the scoring part, however, is overwritten whenever the scoring
snapshot verifies and a player slot is found, regardless of any telemetry
id agreement. -/
theorem C2_view_update_conditions (env : Env) (s : LoopState)
    (hr : (tick env s).restore_counter ≠ 70) :
    ((tick env s).LastTele = s.LastTele ∨
      ∃ i : Fin 128, dataVerified env.scor = true ∧ playerScan env.scor = some i ∧
        dataVerified env.tele = true ∧
        (env.tele.mVehicles i).mID = (env.scor.mVehicles i).mID ∧
        (tick env s).LastTele = env.tele)
  ∧ (∀ i : Fin 128, dataVerified env.scor = true → playerScan env.scor = some i →
      (tick env s).LastScor = env.scor) := by
  obtain ⟨hLS, hLT, -⟩ := tick_fields_no_restore env s hr
  constructor
  · rcases publishPhase_cases env (copyPhase env s) with
      hcase | ⟨i, hvv, hpp, ⟨hcond, hcase⟩ | ⟨-, hcase⟩⟩
    · left
      rw [hLT, hcase]
      rfl
    · right
      have hcond2 : dataVerified env.tele = true ∧
          (env.tele.mVehicles i).mID = (env.scor.mVehicles i).mID := by
        simpa using hcond
      refine ⟨i, hvv, hpp, hcond2.1, hcond2.2, ?_⟩
      rw [hLT, hcase]
    · left
      rw [hLT, hcase]
      rfl
  · intro i hvv hpp
    by_cases htl : dataVerified env.tele = true ∧
        (env.tele.mVehicles i).mID = (env.scor.mVehicles i).mID
    · rw [hLS, publishPhase_of_some env (copyPhase env s) i hvv hpp htl.1 htl.2]
    · rw [hLS, publishPhase_of_some_mismatch env (copyPhase env s) i hvv hpp htl]

/-- Witness for C2 at concrete input: the mismatching tick leaves the
telemetry part untouched while the scoring part is overwritten. -/
theorem C2_witness :
    ((tick c2env c2state).LastTele = c2state.LastTele ∨
      ∃ i : Fin 128, dataVerified c2env.scor = true ∧
        playerScan c2env.scor = some i ∧ dataVerified c2env.tele = true ∧
        (c2env.tele.mVehicles i).mID = (c2env.scor.mVehicles i).mID ∧
        (tick c2env c2state).LastTele = c2env.tele)
  ∧ (∀ i : Fin 128, dataVerified c2env.scor = true →
      playerScan c2env.scor = some i →
      (tick c2env c2state).LastScor = c2env.scor) :=
  C2_view_update_conditions c2env c2state (by decide)

/-- Scoring snapshot for C3: slot 3 is the player and carries id 42. -/
def c3scor : Snapshot :=
  ⟨2, 2, fun i => if i.val = 3 then ⟨42, 1, 0⟩ else defaultSlot⟩

/-- Telemetry snapshot for C3: slot 7 carries id 42 (the player id), while
slot 3 — the slot at the scoring index — carries the unrelated id 5. -/
def c3tele : Snapshot :=
  ⟨2, 2, fun i =>
    if i.val = 7 then ⟨42, 0, 777⟩
    else if i.val = 3 then ⟨5, 0, 333⟩
    else defaultSlot⟩

/-- Tick contents for the C3 counterexample. -/
def c3env : Env :=
  { scor := c3scor, tele := c3tele, ext := 0, ffb := 0,
    rescor := zeroSnap, retele := zeroSnap, reext := 0, reffb := 0 }

/-- A freshly initialized state for the C3 counterexample. -/
def c3state : LoopState := initState "" ⟨zeroSnap, zeroSnap, 0, 0⟩

/-- Claim C3, counterexample: scoring slot 3 has the player flag and id 42,
and telemetry slot 7 carries id 42, yet after the tick the synced telemetry
accessor does not return telemetry slot 7's payload — the loop never scans
the telemetry array for a matching id (the spec-modelled
`find_telemetry_index` would resolve slot 7); it only compares the telemetry
slot at the scoring index 3, whose id 5 mismatches, so the telemetry view is
not updated at all. -/
theorem C3_counterexample :
    playerScan c3env.scor = some (3 : Fin 128) ∧
    (c3env.scor.mVehicles (3 : Fin 128)).mIsPlayer = 1 ∧
    (c3env.scor.mVehicles (3 : Fin 128)).mID = 42 ∧
    (c3env.tele.mVehicles (7 : Fin 128)).mID = 42 ∧
    find_telemetry_index 42 c3env.tele = some (7 : Fin 128) ∧
    syncedVehicleTelemetry (tick c3env c3state) ≠
      some (c3env.tele.mVehicles (7 : Fin 128)) := by
  decide

lemma vehicleAt_val (snap : Snapshot) (i : Fin 128) :
    vehicleAt snap i.val = some (snap.mVehicles i) := by
  simp [vehicleAt]

/-- Claim C3 (amended): the loop resolves telemetry by checking only the
telemetry slot at the scoring index: when the scoring snapshot verifies with
player slot `i` and the telemetry snapshot verifies with the id of its slot
`i` matching the player id, the telemetry view takes the new snapshot and
the synced telemetry accessor returns the telemetry slot at that same
index `i` (outside freeze-restore ticks). -/
theorem C3_telemetry_same_index_only (env : Env) (s : LoopState) (i : Fin 128)
    (hv : dataVerified env.scor = true) (hp : playerScan env.scor = some i)
    (ht : dataVerified env.tele = true)
    (hid : (env.tele.mVehicles i).mID = (env.scor.mVehicles i).mID)
    (hr : (tick env s).restore_counter ≠ 70) :
    syncedVehicleTelemetry (tick env s) = some (env.tele.mVehicles i) ∧
    (tick env s).players_index = i.val := by
  obtain ⟨-, hLT, hPI⟩ := tick_fields_no_restore env s hr
  have hpub := publishPhase_of_some env (copyPhase env s) i hv hp ht hid
  have hLT2 : (tick env s).LastTele = env.tele := by
    rw [hLT, hpub]
  have hPI2 : (tick env s).players_index = i.val := by
    rw [hPI, hpub]
  refine ⟨?_, hPI2⟩
  rw [syncedVehicleTelemetry, hLT2, hPI2]
  exact vehicleAt_val env.tele i

/-- Telemetry snapshot for the C3 witness: the slot at the scoring index 3
carries the matching id 42. -/
def c3wtele : Snapshot :=
  ⟨2, 2, fun i => if i.val = 3 then ⟨42, 0, 555⟩ else defaultSlot⟩

/-- Tick contents for the C3 witness. -/
def c3wenv : Env :=
  { scor := c3scor, tele := c3wtele, ext := 0, ffb := 0,
    rescor := zeroSnap, retele := zeroSnap, reext := 0, reffb := 0 }

/-- A freshly initialized state for the C3 witness. -/
def c3wstate : LoopState := initState "" ⟨zeroSnap, zeroSnap, 0, 0⟩

/-- Witness for C3 at concrete input: with matching ids at the scoring
index, the accessor returns the telemetry slot at that index. -/
theorem C3_witness :
    syncedVehicleTelemetry (tick c3wenv c3wstate) =
      some (c3wenv.tele.mVehicles (3 : Fin 128)) ∧
    (tick c3wenv c3wstate).players_index = (3 : Fin 128).val :=
  C3_telemetry_same_index_only c3wenv c3wstate 3
    (by decide) (by decide) (by decide) (by decide) (by decide)

/-! ## Claim C6 — the freeze-triggered restore -/

lemma restartFlagPhase_rc_of_70 (z : LoopState) (hm : z.mmap_restarted = true)
    (h70 : z.restore_counter = 70) :
    (restartFlagPhase z).restore_counter = 0 ∨
    (restartFlagPhase z).restore_counter = 71 := by
  simp only [restartFlagPhase]
  rw [if_pos hm]
  by_cases hne : (z.re_version_update != z.LastScor.mVersionUpdateEnd) = true
  · rw [if_pos hne]
    left
    rfl
  · rw [if_neg hne]
    rw [if_pos (show z.restore_counter < 71 by omega)]
    right
    show z.restore_counter + 1 = 71
    omega

/-- Tick contents for the C6 counterexample: a torn scoring copy, so the
publish step plays no role on the restore tick. -/
def c6env : Env :=
  { scor := tornSnap 1 2, tele := zeroSnap, ext := 0, ffb := 0,
    rescor := zeroSnap, retele := zeroSnap, reext := 0, reffb := 0 }

/-- State for the C6 counterexample: restart pending with recorded stamp 5
still equal to the published scoring stamp, restore counter at 69, and both
published records differing from the defaults. -/
def c6state : LoopState :=
  { players_index := 99, DefTele := zeroSnap, DefScor := zeroSnap,
    DefExt := 0, DefFfb := 0,
    LastTele := plainSnap 9, LastScor := plainSnap 5, LastExt := 0, LastFfb := 0,
    players_mid := 0, last_version_update := 5, re_version_update := 5,
    mmap_restarted := true, check_counter := 0, restore_counter := 69,
    mmap_open := true, mmap_pid := "" }

/-- Claim C6, counterexample: the freeze-triggered reset does not clear
exactly one designated transient artifact field — on the restore tick both
the published scoring record and the published telemetry record (two whole
records, among the four that are reset) change to the default copies. -/
theorem C6_counterexample :
    (tick c6env c6state).LastScor.mVersionUpdateEnd ≠
      c6state.LastScor.mVersionUpdateEnd ∧
    (tick c6env c6state).LastTele.mVersionUpdateEnd ≠
      c6state.LastTele.mVersionUpdateEnd := by
  decide

/-- Claim C6 (amended): when the restore fires (the restore counter lands on
70, which happens 70 ticks after a mapping restart whose recorded stamp has
not moved), the entire published view — telemetry, scoring, extended and
force-feedback records — is reset to the default copies captured at mapping
start, and while the restart episode is still pending it cannot fire again
on the next tick (the counter moves to 71 or is rearmed to 0). -/
theorem C6_restore_resets_whole_view (env env2 : Env) (s : LoopState)
    (h70 : (tick env s).restore_counter = 70) :
    ((tick env s).LastTele = (tick env s).DefTele ∧
     (tick env s).LastScor = (tick env s).DefScor ∧
     (tick env s).LastExt = (tick env s).DefExt ∧
     (tick env s).LastFfb = (tick env s).DefFfb)
  ∧ ((tick env s).mmap_restarted = true →
      (tick env2 (tick env s)).restore_counter ≠ 70) := by
  constructor
  · obtain ⟨-, -, -, -, -, -, -, -, -, -, frc, -, -⟩ :=
      restorePhase_frame
        (restartFlagPhase (checkPhase env (publishPhase env (copyPhase env s))))
    have hyrc : (restartFlagPhase
        (checkPhase env (publishPhase env (copyPhase env s)))).restore_counter = 70 := by
      rw [← frc]
      rw [tick_eq] at h70
      exact h70
    have htick : tick env s =
        set_default_mmap
          (restartFlagPhase (checkPhase env (publishPhase env (copyPhase env s)))) := by
      rw [tick_eq]
      exact restorePhase_of_eq _ hyrc
    rw [htick]
    exact ⟨rfl, rfl, rfl, rfl⟩
  · intro hmr
    have hzrc : (checkPhase env2
        (publishPhase env2 (copyPhase env2 (tick env s)))).restore_counter = 70 := by
      obtain ⟨-, -, -, -, -, -, krc, -⟩ :=
        checkPhase_frame env2 (publishPhase env2 (copyPhase env2 (tick env s)))
      obtain ⟨-, -, -, -, -, -, -, -, -, -, prc, -, -⟩ :=
        publishPhase_frame env2 (copyPhase env2 (tick env s))
      rw [krc, prc]
      exact h70
    have hzm : (checkPhase env2
        (publishPhase env2 (copyPhase env2 (tick env s)))).mmap_restarted = true := by
      apply checkPhase_restarted_true
      obtain ⟨-, -, -, -, -, -, -, -, pm, -, -, -, -⟩ :=
        publishPhase_frame env2 (copyPhase env2 (tick env s))
      rw [pm]
      exact hmr
    obtain ⟨-, -, -, -, -, -, -, -, -, -, qrc, -, -⟩ :=
      restorePhase_frame
        (restartFlagPhase
          (checkPhase env2 (publishPhase env2 (copyPhase env2 (tick env s)))))
    have hq : (tick env2 (tick env s)).restore_counter =
        (restartFlagPhase
          (checkPhase env2
            (publishPhase env2 (copyPhase env2 (tick env s))))).restore_counter := by
      rw [tick_eq]
      exact qrc
    rcases restartFlagPhase_rc_of_70 _ hzm hzrc with h0 | h71
    · rw [hq, h0]
      omega
    · rw [hq, h71]
      omega

/-- Witness for C6 at concrete input: on the firing tick the whole view
equals the defaults, and the restore cannot fire again on the next tick. -/
theorem C6_witness :
    ((tick c6env c6state).LastTele = (tick c6env c6state).DefTele ∧
     (tick c6env c6state).LastScor = (tick c6env c6state).DefScor ∧
     (tick c6env c6state).LastExt = (tick c6env c6state).DefExt ∧
     (tick c6env c6state).LastFfb = (tick c6env c6state).DefFfb) ∧
    (tick c6env (tick c6env c6state)).restore_counter ≠ 70 :=
  ⟨(C6_restore_resets_whole_view c6env c6env c6state (by decide)).1,
   (C6_restore_resets_whole_view c6env c6env c6state (by decide)).2 (by decide)⟩

/-! ## Claim C7 — repeated stamp triggers a mapping reset -/

lemma checkPhase_fire (env : Env) (z : LoopState)
    (hc : 70 ≤ z.check_counter) (hm : z.mmap_restarted = false)
    (hl : z.last_version_update ≠ 0)
    (he : z.last_version_update = z.LastScor.mVersionUpdateEnd) :
    (checkPhase env z).mmap_restarted = true ∧
    (checkPhase env z).mmap_open = true ∧
    (checkPhase env z).mmap_pid = z.mmap_pid ∧
    (checkPhase env z).DefTele = env.retele ∧
    (checkPhase env z).DefScor = env.rescor ∧
    (checkPhase env z).DefExt = env.reext ∧
    (checkPhase env z).DefFfb = env.reffb ∧
    (checkPhase env z).re_version_update = z.LastScor.mVersionUpdateEnd ∧
    (checkPhase env z).LastScor = z.LastScor := by
  have hl2 : z.LastScor.mVersionUpdateEnd ≠ 0 := he ▸ hl
  simp only [checkPhase]
  rw [if_pos (show ({ z with check_counter := z.check_counter + 1 } :
      LoopState).check_counter > 70 by
    show z.check_counter + 1 > 70
    omega)]
  rw [if_pos (show (!({ z with check_counter := z.check_counter + 1 } :
        LoopState).mmap_restarted &&
      ({ z with check_counter := z.check_counter + 1 } :
        LoopState).last_version_update != 0 &&
      (({ z with check_counter := z.check_counter + 1 } :
        LoopState).last_version_update ==
       ({ z with check_counter := z.check_counter + 1 } :
        LoopState).LastScor.mVersionUpdateEnd)) = true by
    show (!z.mmap_restarted && z.last_version_update != 0 &&
      (z.last_version_update == z.LastScor.mVersionUpdateEnd)) = true
    rw [hm, he]
    simp [hl2])]
  exact ⟨rfl, rfl, rfl, rfl, rfl, rfl, rfl, rfl, rfl⟩

lemma restartFlagPhase_restarted_of_eq (z : LoopState)
    (hm : z.mmap_restarted = true)
    (heq : z.re_version_update = z.LastScor.mVersionUpdateEnd) :
    (restartFlagPhase z).mmap_restarted = true := by
  simp only [restartFlagPhase]
  rw [if_pos hm, if_neg (by simp [heq])]
  split
  · exact hm
  · exact hm

lemma tick_Def_open_pid (env : Env) (s : LoopState) :
    (tick env s).DefTele =
      (checkPhase env (publishPhase env (copyPhase env s))).DefTele ∧
    (tick env s).DefScor =
      (checkPhase env (publishPhase env (copyPhase env s))).DefScor ∧
    (tick env s).DefExt =
      (checkPhase env (publishPhase env (copyPhase env s))).DefExt ∧
    (tick env s).DefFfb =
      (checkPhase env (publishPhase env (copyPhase env s))).DefFfb ∧
    (tick env s).mmap_open =
      (checkPhase env (publishPhase env (copyPhase env s))).mmap_open ∧
    (tick env s).mmap_pid =
      (checkPhase env (publishPhase env (copyPhase env s))).mmap_pid ∧
    (tick env s).mmap_restarted =
      (restartFlagPhase
        (checkPhase env (publishPhase env (copyPhase env s)))).mmap_restarted := by
  obtain ⟨-, rd1, rd2, rd3, rd4, -, -, -, rm, -, -, ro, rp⟩ :=
    restorePhase_frame
      (restartFlagPhase (checkPhase env (publishPhase env (copyPhase env s))))
  obtain ⟨-, -, -, -, -, gd1, gd2, gd3, gd4, -, -, -, -, go, gp⟩ :=
    restartFlagPhase_frame (checkPhase env (publishPhase env (copyPhase env s)))
  rw [tick_eq]
  exact ⟨rd1.trans gd1, rd2.trans gd2, rd3.trans gd3, rd4.trans gd4,
    ro.trans go, rp.trans gp, rm⟩

/-- Claim C7: if, at a check window (check counter at or past 70), the
scoring version stamp recorded at the previous window is non-zero, no
restart is pending, and the published scoring stamp after this tick's
publish step still equals the recorded stamp, then the tick triggers a
shared-segment reset: the mappings end the tick open under the same naming
parameter with the default copies re-captured from the remapped regions and
the restart marked pending; and `reset_mmap` consists exactly of closing the
mappings and then reopening them with the same parameters. -/
theorem C7_repeated_stamp_triggers_reset (env : Env) (s : LoopState)
    (hc : 70 ≤ s.check_counter)
    (hm : s.mmap_restarted = false)
    (hl : s.last_version_update ≠ 0)
    (he : s.last_version_update =
      (publishPhase env (copyPhase env s)).LastScor.mVersionUpdateEnd) :
    (tick env s).mmap_restarted = true ∧
    (tick env s).mmap_open = true ∧
    (tick env s).mmap_pid = s.mmap_pid ∧
    (tick env s).DefTele = env.retele ∧
    (tick env s).DefScor = env.rescor ∧
    (tick env s).DefExt = env.reext ∧
    (tick env s).DefFfb = env.reffb ∧
    (∀ e u, reset_mmap e u = start_mmap e (close_mmap u)) ∧
    (∀ u, (close_mmap u).mmap_pid = u.mmap_pid ∧
      (close_mmap u).mmap_open = false) ∧
    (∀ e u, (start_mmap e u).mmap_pid = u.mmap_pid ∧
      (start_mmap e u).mmap_open = true) := by
  obtain ⟨pD1, pD2, pD3, pD4, -, -, plvu, -, pm, pcc, -, -, ppid⟩ :=
    publishPhase_frame env (copyPhase env s)
  have hc2 : 70 ≤ (publishPhase env (copyPhase env s)).check_counter := by
    rw [pcc]
    exact hc
  have hm2 : (publishPhase env (copyPhase env s)).mmap_restarted = false := by
    rw [pm]
    exact hm
  have hl2 : (publishPhase env (copyPhase env s)).last_version_update ≠ 0 := by
    rw [plvu]
    exact hl
  have he2 : (publishPhase env (copyPhase env s)).last_version_update =
      (publishPhase env (copyPhase env s)).LastScor.mVersionUpdateEnd := by
    rw [plvu]
    exact he
  obtain ⟨f1, f2, f3, f4, f5, f6, f7, f8, f9⟩ :=
    checkPhase_fire env (publishPhase env (copyPhase env s)) hc2 hm2 hl2 he2
  obtain ⟨d1, d2, d3, d4, o5, p6, m7⟩ := tick_Def_open_pid env s
  refine ⟨?_, ?_, ?_, ?_, ?_, ?_, ?_,
    fun e u => rfl, fun u => ⟨rfl, rfl⟩, fun e u => ⟨rfl, rfl⟩⟩
  · rw [m7]
    apply restartFlagPhase_restarted_of_eq _ f1
    rw [f8, f9]
  · rw [o5, f2]
  · rw [p6, f3, ppid]
    rfl
  · rw [d1, f4]
  · rw [d2, f5]
  · rw [d3, f6]
  · rw [d4, f7]

/-- Tick contents for the C7 witness: the remapped regions expose fresh
contents with stamp 8. -/
def c7wenv : Env :=
  { scor := tornSnap 1 2, tele := zeroSnap, ext := 0, ffb := 0,
    rescor := plainSnap 8, retele := plainSnap 8, reext := 4, reffb := 6 }

/-- State for the C7 witness: two check windows have passed with the same
non-zero published stamp 5 and no restart pending; the counter sits at the
window boundary. -/
def c7wstate : LoopState :=
  { players_index := 99, DefTele := zeroSnap, DefScor := zeroSnap,
    DefExt := 0, DefFfb := 0,
    LastTele := plainSnap 5, LastScor := plainSnap 5, LastExt := 0, LastFfb := 0,
    players_mid := 0, last_version_update := 5, re_version_update := 0,
    mmap_restarted := false, check_counter := 70, restore_counter := 0,
    mmap_open := true, mmap_pid := "pid7" }

/-- Witness for C7 at concrete input: the window with a repeated non-zero
stamp triggers the reset, reopening under the same pid with fresh default
copies. -/
theorem C7_witness :
    (tick c7wenv c7wstate).mmap_restarted = true ∧
    (tick c7wenv c7wstate).mmap_open = true ∧
    (tick c7wenv c7wstate).mmap_pid = c7wstate.mmap_pid ∧
    (tick c7wenv c7wstate).DefTele = c7wenv.retele ∧
    (tick c7wenv c7wstate).DefScor = c7wenv.rescor ∧
    (tick c7wenv c7wstate).DefExt = c7wenv.reext ∧
    (tick c7wenv c7wstate).DefFfb = c7wenv.reffb ∧
    (∀ e u, reset_mmap e u = start_mmap e (close_mmap u)) ∧
    (∀ u, (close_mmap u).mmap_pid = u.mmap_pid ∧
      (close_mmap u).mmap_open = false) ∧
    (∀ e u, (start_mmap e u).mmap_pid = u.mmap_pid ∧
      (start_mmap e u).mmap_open = true) :=
  C7_repeated_stamp_triggers_reset c7wenv c7wstate
    (by decide) (by decide) (by decide) (by decide)

/-! ## Claim C9 — the player index is always a valid slot position -/

lemma tick_players_index_eq_publish (env : Env) (s : LoopState) :
    (tick env s).players_index =
      (publishPhase env (copyPhase env s)).players_index := by
  rw [tick_eq]
  obtain ⟨r1, -, -, -, -, -, -, -, -, -, -, -, -⟩ :=
    restorePhase_frame
      (restartFlagPhase (checkPhase env (publishPhase env (copyPhase env s))))
  obtain ⟨g1, -, -, -, -, -, -, -, -, -, -, -, -, -, -⟩ :=
    restartFlagPhase_frame (checkPhase env (publishPhase env (copyPhase env s)))
  obtain ⟨k1, -, -, -, -, -, -, -⟩ :=
    checkPhase_frame env (publishPhase env (copyPhase env s))
  rw [r1, g1, k1]

lemma tick_players_index_cases (env : Env) (s : LoopState) :
    (tick env s).players_index = s.players_index ∨
    ∃ i : Fin 128, playerScan env.scor = some i ∧
      (tick env s).players_index = i.val := by
  have hpi := tick_players_index_eq_publish env s
  rcases publishPhase_cases env (copyPhase env s) with
    h | ⟨i, -, hp, ⟨-, h⟩ | ⟨-, h⟩⟩
  · left
    rw [hpi, h]
    rfl
  · right
    exact ⟨i, hp, by rw [hpi, h]⟩
  · right
    exact ⟨i, hp, by rw [hpi, h]⟩

lemma tick_players_index_lt (env : Env) (s : LoopState)
    (h : s.players_index < 128) : (tick env s).players_index < 128 := by
  rcases tick_players_index_cases env s with h1 | ⟨i, -, h2⟩
  · rw [h1]
    exact h
  · rw [h2]
    exact i.isLt

lemma tick_players_index_of_nofind (env : Env) (s : LoopState)
    (hnf : dataVerified env.scor = true → playerScan env.scor = none) :
    (tick env s).players_index = s.players_index := by
  have hpi := tick_players_index_eq_publish env s
  by_cases hv : dataVerified env.scor = true
  · rw [hpi, publishPhase_of_none env _ (hnf hv)]
    rfl
  · rw [hpi, publishPhase_of_not_verified env _ (by simpa using hv)]
    rfl

lemma run_players_index_lt (pid : String) (d : InitData) (f : Nat → Env) :
    ∀ n, (run pid d f n).players_index < 128 := by
  intro n
  induction n with
  | zero =>
    show (99 : Nat) < 128
    omega
  | succ k ih => exact tick_players_index_lt (f k) _ ih

lemma run_players_index_of_nofind (pid : String) (d : InitData) (f : Nat → Env) :
    ∀ n, (∀ k, k < n →
        (dataVerified (f k).scor = true → playerScan (f k).scor = none)) →
      (run pid d f n).players_index = 99 := by
  intro n
  induction n with
  | zero =>
    intro _
    rfl
  | succ k ih =>
    intro hall
    have h1 : (run pid d f (k + 1)).players_index =
        (run pid d f k).players_index :=
      tick_players_index_of_nofind (f k) _ (hall k (by omega))
    rw [h1, ih (fun j hj => hall j (by omega))]

lemma syncedVehicle_some_of_lt (s : LoopState) (h : s.players_index < 128) :
    syncedVehicleTelemetry s = some (s.LastTele.mVehicles ⟨s.players_index, h⟩) ∧
    syncedVehicleScoring s = some (s.LastScor.mVehicles ⟨s.players_index, h⟩) := by
  constructor <;> simp [syncedVehicleTelemetry, syncedVehicleScoring, vehicleAt, h]

/-- Claim C9: in every reachable state of the update loop the player index
is a valid slot position below 128 (it starts at 99 and is only ever
reassigned to a scan result), so the public accessors always return a slot
and never signal an unresolved state; while no scan has succeeded the index
stays 99, and at start the accessors silently return the default-copy
vehicle slot at position 99. -/
theorem C9_player_index_safe (pid : String) (d : InitData) (f : Nat → Env)
    (n : Nat) :
    (run pid d f n).players_index < 128
  ∧ (∃ v, syncedVehicleTelemetry (run pid d f n) = some v)
  ∧ (∃ v, syncedVehicleScoring (run pid d f n) = some v)
  ∧ ((∀ k, k < n →
        (dataVerified (f k).scor = true → playerScan (f k).scor = none)) →
      (run pid d f n).players_index = 99)
  ∧ (syncedVehicleTelemetry (run pid d f 0) =
        some (d.tele.mVehicles (99 : Fin 128)) ∧
      syncedVehicleScoring (run pid d f 0) =
        some (d.scor.mVehicles (99 : Fin 128))) := by
  have hlt := run_players_index_lt pid d f n
  obtain ⟨ht, hs⟩ := syncedVehicle_some_of_lt _ hlt
  have h99 : (99 : Nat) < 128 := by omega
  have hfin : (⟨99, h99⟩ : Fin 128) = (99 : Fin 128) := rfl
  refine ⟨hlt, ⟨_, ht⟩, ⟨_, hs⟩, run_players_index_of_nofind pid d f n, ?_, ?_⟩
  · show vehicleAt d.tele 99 = some (d.tele.mVehicles (99 : Fin 128))
    simp only [vehicleAt]
    rw [dif_pos h99, hfin]
  · show vehicleAt d.scor 99 = some (d.scor.mVehicles (99 : Fin 128))
    simp only [vehicleAt]
    rw [dif_pos h99, hfin]

/-- Initial region contents for the C9 witness. -/
def c9d : InitData := ⟨zeroSnap, zeroSnap, 0, 0⟩

/-- Producer contents for the C9 witness: every tick verifies but carries no
player slot. -/
def c9f : Nat → Env := fun _ =>
  { scor := plainSnap 6, tele := zeroSnap, ext := 0, ffb := 0,
    rescor := zeroSnap, retele := zeroSnap, reext := 0, reffb := 0 }

/-- Witness for C9 at concrete input: after two playerless ticks the index
is still 99, within bounds, and the accessor yields a slot. -/
theorem C9_witness :
    (run "" c9d c9f 2).players_index < 128 ∧
    (run "" c9d c9f 2).players_index = 99 ∧
    (∃ v, syncedVehicleTelemetry (run "" c9d c9f 2) = some v) :=
  ⟨(C9_player_index_safe "" c9d c9f 2).1,
   (C9_player_index_safe "" c9d c9f 2).2.2.2.1 (by decide),
   (C9_player_index_safe "" c9d c9f 2).2.1⟩

/-! ## Claim C8 — stopping and the polling loop

`startUpdating` runs `__infoUpdate` on a separate daemon thread;
`stopUpdating` (line 204) merely sets `self.data_updating = False` and then
`time.sleep(0.2)` — it never joins the thread.  This is modelled as a small
interleaving system with two threads: the loop thread sits either at the
`while self.data_updating` check or inside the body (whose segment reads,
publishes and sleep are the `evRead` step), and the stopping thread clears
the flag, sleeps, and returns.  A scheduler may interleave the two threads
arbitrarily; nothing forces the loop to run during the stopper's fixed
sleep. -/

/-- Program counter of the loop thread of `__infoUpdate`. -/
inductive LoopPC
  | atCheck
  | atBody
  | exited
deriving DecidableEq, Repr

/-- Program counter of the thread calling `stopUpdating`. -/
inductive StopPC
  | idle
  | flagCleared
  | slept
  | returned
deriving DecidableEq, Repr

/-- Joint state: the shared `data_updating` flag and both program
counters. -/
structure Sys where
  updating : Bool
  loopPC : LoopPC
  stopPC : StopPC
deriving DecidableEq, Repr

/-- Events of the interleaving: the loop passing its flag check, the loop
body performing its segment reads and going back to the check, the loop
exiting at the check, and the three steps of `stopUpdating` (clear flag,
fixed sleep, return). -/
inductive Ev
  | evRead
  | evLoopCont
  | evLoopQuit
  | evStopClear
  | evStopSleep
  | evStopReturn
deriving DecidableEq, Repr

/-- One interleaving step: a scheduler picks whichever thread moves. -/
def stepB (s : Sys) (e : Ev) (t : Sys) : Bool :=
  match e with
  | Ev.evLoopCont =>
      decide (s.loopPC = LoopPC.atCheck) && s.updating &&
        decide (t = { s with loopPC := LoopPC.atBody })
  | Ev.evLoopQuit =>
      decide (s.loopPC = LoopPC.atCheck) && !s.updating &&
        decide (t = { s with loopPC := LoopPC.exited })
  | Ev.evRead =>
      decide (s.loopPC = LoopPC.atBody) &&
        decide (t = { s with loopPC := LoopPC.atCheck })
  | Ev.evStopClear =>
      decide (s.stopPC = StopPC.idle) &&
        decide (t = { s with updating := false, stopPC := StopPC.flagCleared })
  | Ev.evStopSleep =>
      decide (s.stopPC = StopPC.flagCleared) &&
        decide (t = { s with stopPC := StopPC.slept })
  | Ev.evStopReturn =>
      decide (s.stopPC = StopPC.slept) &&
        decide (t = { s with stopPC := StopPC.returned })

/-- A trace from `s`: each entry is the event taken and the state reached. -/
def validFromB (s : Sys) : List (Ev × Sys) → Bool
  | [] => true
  | (e, t) :: rest => stepB s e t && validFromB t rest

/-- The state right after `startUpdating`: loop running, stopper not yet
called. -/
def sysInit : Sys :=
  { updating := true, loopPC := LoopPC.atCheck, stopPC := StopPC.idle }

/-- States along the C8 counterexample trace. -/
def c8s1 : Sys :=
  { updating := true, loopPC := LoopPC.atBody, stopPC := StopPC.idle }

/-- Flag cleared while the loop sits inside its body. -/
def c8s2 : Sys :=
  { updating := false, loopPC := LoopPC.atBody, stopPC := StopPC.flagCleared }

/-- The stopper has finished its fixed sleep; the loop has not run. -/
def c8s3 : Sys :=
  { updating := false, loopPC := LoopPC.atBody, stopPC := StopPC.slept }

/-- `stopUpdating` has returned; the loop is still inside its body. -/
def c8s4 : Sys :=
  { updating := false, loopPC := LoopPC.atBody, stopPC := StopPC.returned }

/-- The loop body finally runs — a segment read after stop returned. -/
def c8s5 : Sys :=
  { updating := false, loopPC := LoopPC.atCheck, stopPC := StopPC.returned }

/-- The C8 counterexample schedule. -/
def c8trace : List (Ev × Sys) :=
  [(Ev.evLoopCont, c8s1), (Ev.evStopClear, c8s2), (Ev.evStopSleep, c8s3),
   (Ev.evStopReturn, c8s4), (Ev.evRead, c8s5)]

/-- Claim C8, counterexample: a valid interleaving from the running state in
which `stopUpdating` returns (step at position 3) and only afterwards the
loop body performs its segment reads (step at position 4) — `stopUpdating`
merely sleeps a fixed 0.2 s without joining the loop thread, so its return
does not wait for the loop to exit. -/
theorem C8_counterexample :
    validFromB sysInit c8trace = true ∧
    c8trace.get? 3 = some (Ev.evStopReturn, c8s4) ∧
    c8trace.get? 4 = some (Ev.evRead, c8s5) := by
  decide

lemma stepB_exited (s : Sys) (e : Ev) (t : Sys)
    (hv : stepB s e t = true) (hx : s.loopPC = LoopPC.exited) :
    e ≠ Ev.evRead ∧ t.loopPC = LoopPC.exited := by
  cases e with
  | evLoopCont =>
    exfalso
    simp only [stepB, Bool.and_eq_true, decide_eq_true_eq] at hv
    rw [hx] at hv
    exact absurd hv.1.1 (by simp)
  | evLoopQuit =>
    exfalso
    simp only [stepB, Bool.and_eq_true, decide_eq_true_eq] at hv
    rw [hx] at hv
    exact absurd hv.1.1 (by simp)
  | evRead =>
    exfalso
    simp only [stepB, Bool.and_eq_true, decide_eq_true_eq] at hv
    rw [hx] at hv
    exact absurd hv.1 (by simp)
  | evStopClear =>
    refine ⟨by simp, ?_⟩
    simp only [stepB, Bool.and_eq_true, decide_eq_true_eq] at hv
    rw [hv.2]
    exact hx
  | evStopSleep =>
    refine ⟨by simp, ?_⟩
    simp only [stepB, Bool.and_eq_true, decide_eq_true_eq] at hv
    rw [hv.2]
    exact hx
  | evStopReturn =>
    refine ⟨by simp, ?_⟩
    simp only [stepB, Bool.and_eq_true, decide_eq_true_eq] at hv
    rw [hv.2]
    exact hx

/-- Claim C8 (amended): `stopUpdating` clears the cooperative flag and
returns after a fixed sleep without joining the loop thread, so a loop
iteration may still read the segments after it returns (see the
counterexample); what does hold is that once the loop thread has observed
the cleared flag and exited, no later step of any valid schedule is a
segment read. -/
theorem C8_no_read_after_loop_quit (s : Sys) (tr : List (Ev × Sys)) (i : Nat)
    (p : Ev × Sys) (hx : s.loopPC = LoopPC.exited)
    (hv : validFromB s tr = true) (hp : tr.get? i = some p) :
    p.1 ≠ Ev.evRead := by
  induction tr generalizing s i with
  | nil => simp [List.get?] at hp
  | cons hd rest ih =>
    obtain ⟨e, t⟩ := hd
    simp only [validFromB, Bool.and_eq_true] at hv
    obtain ⟨hstep, hrest⟩ := hv
    obtain ⟨hne, hxt⟩ := stepB_exited s e t hstep hx
    cases i with
    | zero =>
      injection hp with h
      rw [← h]
      exact hne
    | succ j =>
      exact ih t j hxt hrest hp

/-- A state with the loop already exited, stopper not yet run. -/
def c8wstart : Sys :=
  { updating := true, loopPC := LoopPC.exited, stopPC := StopPC.idle }

/-- The state after the stopper clears the flag from `c8wstart`. -/
def c8wnext : Sys :=
  { updating := false, loopPC := LoopPC.exited, stopPC := StopPC.flagCleared }

/-- Witness for the C8 theorem at a concrete schedule from an exited
state. -/
theorem C8_witness : (Ev.evStopClear, c8wnext).1 ≠ Ev.evRead :=
  C8_no_read_after_loop_quit c8wstart [(Ev.evStopClear, c8wnext)] 0
    (Ev.evStopClear, c8wnext) (by decide) (by decide) (by decide)

end SimInfoSync
